import Mathlib

/-!
Verification development for the telemetry publisher in `app.py`
(CSV replay → payload construction → MQTT publish → shared snapshot).

Machine reals of the Python source are modelled as exact rationals (ℚ);
Python's `round(x, k)` (round-half-to-even to `k` decimal places) is
modelled exactly on ℚ.  The ambient UTC clock read by
`datetime.now(timezone.utc).strftime(...)` is passed to `build_payload`
as an explicit `nowUTC : String` argument.
-/

/-- A cell of the loaded table (one entry of a pandas `Series`).
`nan` is a missing value (`pd.notna` is false exactly on it); `num q` is a
numeric cell; `text s p` is a string cell whose Python `float(s)` either
succeeds with value `q` (`p = some q`) or raises `ValueError` (`p = none`). -/
inductive Cell where
  | nan : Cell
  | num (q : ℚ) : Cell
  | text (s : String) (asNum : Option ℚ) : Cell
deriving DecidableEq

/-- A row of the dataset: a pandas `Series` keyed by column name.
`row.lookup c = none` models the `KeyError` case of `row[c]`. -/
abbrev Row := List (String × Cell)

/-- Floor of a rational number, computed by flooring integer division. -/
def ratFloor (q : ℚ) : ℤ := Int.fdiv q.num (q.den : ℤ)

/-- Round a rational to the nearest integer, ties to even
(the rounding used by Python's built-in `round`). -/
def rndHalfEven (q : ℚ) : ℤ :=
  let f := ratFloor q
  if q - (f : ℚ) < 1/2 then f
  else if 1/2 < q - (f : ℚ) then f + 1
  else if f % 2 = 0 then f else f + 1

/-- Python's `round(q, k)`: round to `k` decimal places, ties to even.
This is the exact-decimal abstraction of `round` on CPython floats: it
agrees with the program wherever the serialized decimal output does, but
its exact ties (e.g. at values like 1.5·10⁻ᵏ with non-dyadic operands)
are points no IEEE-754 double attains, so bit-level double-rounding
behaviour of the binary floats is outside this model. -/
def roundTo (q : ℚ) (k : ℕ) : ℚ := (rndHalfEven (q * 10 ^ k) : ℚ) / 10 ^ k

/-- `q` is a `k`-decimal-place number: an integer multiple of `10⁻ᵏ`. -/
def hasDecimals (q : ℚ) (k : ℕ) : Prop := ∃ z : ℤ, q = (z : ℚ) / 10 ^ k

-- ── Configuration constants of app.py ────────────────────────────────────────

def ASSET_ID : String := "mumbai_campus_node_01"

def MQTT_TOPIC : String := "vpp/telemetry/main_bus"

def PUBLISH_INTERVAL : ℕ := 2

def NOMINAL_FREQ_HZ : ℚ := 50

/-- `COL_MAP`: internal key → CSV column name, as in app.py. -/
def COL_MAP : List (String × String) :=
  [("timestamp", "Timestamp"),
   ("voltage", "Voltage (V)"),
   ("current", "Current (A)"),
   ("power_cons", "Power Consumption (kW)"),
   ("react_power", "Reactive Power (kVAR)"),
   ("power_factor", "Power Factor"),
   ("solar", "Solar Power (kW)"),
   ("wind", "Wind Power (kW)"),
   ("grid_supply", "Grid Supply (kW)"),
   ("v_fluct", "Voltage Fluctuation (%)")]

def colOf (k : String) : String := (COL_MAP.lookup k).getD ""

-- ── Safe cell extractors (`_safe_float`, `_safe_str` of app.py) ──────────────

/-- `_safe_float(row, col, default)`:
`try: val = row[col]; return round(float(val), 6) if pd.notna(val) else default`
`except (KeyError, ValueError, TypeError): return default`. -/
def safe_float (row : Row) (col : String) (d : ℚ) : ℚ :=
  match row.lookup col with
  | none => d                          -- KeyError
  | some Cell.nan => d                 -- pd.notna(val) is false
  | some (Cell.num q) => roundTo q 6
  | some (Cell.text _ (some q)) => roundTo q 6
  | some (Cell.text _ none) => d       -- float(val) raises ValueError

/-- Python `str(val)` on a non-nan cell value. -/
def strOfCell : Cell → String
  | Cell.nan => "nan"
  | Cell.num q => toString q
  | Cell.text s _ => s

/-- `_safe_str(row, col, default)`:
`try: val = row[col]; return str(val) if pd.notna(val) else default`
`except (KeyError, ValueError): return default`. -/
def safe_str (row : Row) (col : String) (d : String) : String :=
  match row.lookup col with
  | none => d
  | some Cell.nan => d
  | some c => strOfCell c

-- ── Telemetry payload (`build_payload` of app.py) ────────────────────────────

structure Header where
  asset_id : String
  timestamp : String
  status : String
deriving DecidableEq

structure GridState where
  voltage_v : ℚ
  current_a : ℚ
  frequency_hz : ℚ
  power_factor : ℚ
  voltage_fluctuation : ℚ
deriving DecidableEq

structure EnergyFlow where
  load_kw : ℚ
  solar_gen_kw : ℚ
  wind_gen_kw : ℚ
  grid_supply_kw : ℚ
  reactive_power_kvar : ℚ
deriving DecidableEq

structure Payload where
  header : Header
  grid_state : GridState
  energy_flow : EnergyFlow
deriving DecidableEq

/-- `build_payload(row)` of app.py.  The Python `if ts_raw:` truthiness test
is the emptiness test on the string; the `datetime.now` fallback is the
explicit `nowUTC` argument. -/
def build_payload (row : Row) (nowUTC : String) : Payload :=
  let ts_raw := safe_str row (colOf "timestamp") ""
  let timestamp := if ts_raw = "" then nowUTC else ts_raw
  let voltage := safe_float row (colOf "voltage") 0
  let current_a := safe_float row (colOf "current") 0
  let power_cons := safe_float row (colOf "power_cons") 0
  let react_pwr := safe_float row (colOf "react_power") 0
  let pwr_factor := safe_float row (colOf "power_factor") 0
  let solar := safe_float row (colOf "solar") 0
  let wind := safe_float row (colOf "wind") 0
  let grid_supply := safe_float row (colOf "grid_supply") 0
  let v_fluct := safe_float row (colOf "v_fluct") 0
  { header :=
      { asset_id := ASSET_ID
        timestamp := timestamp
        status := "online" }
    grid_state :=
      { voltage_v := roundTo voltage 4
        current_a := roundTo current_a 4
        frequency_hz := NOMINAL_FREQ_HZ
        power_factor := roundTo pwr_factor 6
        voltage_fluctuation := roundTo v_fluct 6 }
    energy_flow :=
      { load_kw := roundTo power_cons 4
        solar_gen_kw := roundTo solar 4
        wind_gen_kw := roundTo wind 4
        grid_supply_kw := roundTo grid_supply 4
        reactive_power_kvar := roundTo react_pwr 4 } }

-- ── Evaluation lemmas for the rounding model ─────────────────────────────────

lemma ratFloor_eq_floor (q : ℚ) : ratFloor q = ⌊q⌋ := by
  rw [ratFloor, Int.fdiv_eq_ediv _ (Int.ofNat_nonneg q.den), Rat.floor_def]

lemma floor_of_bounds {q : ℚ} {z : ℤ} (h1 : (z : ℚ) ≤ q) (h2 : q < z + 1) :
    ratFloor q = z := by
  rw [ratFloor_eq_floor]; exact Int.floor_eq_iff.mpr ⟨h1, h2⟩

lemma rndHalfEven_low {q : ℚ} {z : ℤ} (h1 : (z : ℚ) ≤ q) (h2 : q - z < 1/2) :
    rndHalfEven q = z := by
  have hf : ratFloor q = z := floor_of_bounds h1 (by linarith)
  rw [rndHalfEven, hf]
  simp only [if_pos h2]

lemma rndHalfEven_high {q : ℚ} {z : ℤ} (h1 : 1/2 < q - z) (h2 : q < z + 1) :
    rndHalfEven q = z + 1 := by
  have hf : ratFloor q = z := floor_of_bounds (by linarith) h2
  rw [rndHalfEven, hf]
  rw [if_neg (by linarith), if_pos h1]

lemma rndHalfEven_tie {q : ℚ} {z : ℤ} (h : q - z = 1/2) :
    rndHalfEven q = (if z % 2 = 0 then z else z + 1) := by
  have hf : ratFloor q = z := floor_of_bounds (by linarith) (by linarith)
  rw [rndHalfEven, hf]
  rw [if_neg (by rw [h]; exact lt_irrefl _), if_neg (by rw [h]; exact lt_irrefl _)]

lemma roundTo_hasDecimals (q : ℚ) (k : ℕ) : hasDecimals (roundTo q k) k :=
  ⟨rndHalfEven (q * 10 ^ k), rfl⟩

lemma colOf_timestamp : colOf "timestamp" = "Timestamp" := by decide

lemma colOf_voltage : colOf "voltage" = "Voltage (V)" := by decide

lemma colOf_power_factor : colOf "power_factor" = "Power Factor" := by decide

-- ── Dataset loading (`pd.read_csv` at module import time in app.py) ──────────

/-- The loaded table: `_df` of app.py (a pandas `DataFrame`):
column names plus the list of data rows (each a list of cells, one per
column). -/
structure DataFrame where
  columns : List String
  cells : List (List Cell)
deriving DecidableEq

/-- `len(_df)`: the number of data rows. -/
def DataFrame.len (f : DataFrame) : ℕ := f.cells.length

/-- `_df.iloc[i]`: the row at position `i`, as a pandas `Series`
(column name ↦ cell). -/
def DataFrame.rowAt (f : DataFrame) (i : ℕ) : Row :=
  f.columns.zip (f.cells.getD i [])

/-- A CSV source, abstracted to the cases `pd.read_csv` distinguishes:
a file with no columns at all, a file the tokenizer rejects, or a
well-formed table (header line plus zero or more data lines). -/
inductive CsvSrc where
  | empty : CsvSrc
  | malformed : CsvSrc
  | table (header : List String) (cells : List (List Cell)) : CsvSrc
deriving DecidableEq

/-- Modelled behaviour of `pandas.read_csv`: a file with no content raises
`EmptyDataError`, a file the tokenizer rejects raises `ParserError`, and
otherwise the header line and data lines parse into a `DataFrame` — in
particular a header-only file parses into a `DataFrame` with zero rows. -/
def read_csv : CsvSrc → Except String DataFrame
  | CsvSrc.empty => Except.error "EmptyDataError: No columns to parse from file"
  | CsvSrc.malformed => Except.error "ParserError: Error tokenizing data"
  | CsvSrc.table h cs => Except.ok { columns := h, cells := cs }

/-- Python's `str.strip()`: drop whitespace from both ends. -/
def stripStr (s : String) : String :=
  String.mk (((s.data.dropWhile Char.isWhitespace).reverse.dropWhile
    Char.isWhitespace).reverse)

/-- The module-level load of app.py:
`_df = pd.read_csv(CSV_PATH)` followed by
`_df.columns = [c.strip() for c in _df.columns]`.
Any exception from `read_csv` propagates and aborts startup. -/
def load_dataset (src : CsvSrc) : Except String DataFrame :=
  (read_csv src).map fun f => { columns := f.columns.map stripStr, cells := f.cells }

/-- Startup of app.py: the publisher thread (the Replay Loop) is started
only when the module-level load succeeded; a load exception aborts the
process before the thread is created. -/
def startup (src : CsvSrc) : Option DataFrame :=
  match load_dataset src with
  | Except.error _ => none
  | Except.ok f => some f

-- ── The Replay Loop (`publisher_thread` of app.py) ───────────────────────────

/-- The lock-guarded fields of `_state` written by the Replay Loop, plus the
loop-local cursor `idx`.  `last_payload` and `row_index` are written together
in one `with _state_lock:` block, so one loop iteration updates them in a
single atomic transition of this model. -/
structure LoopState where
  idx : ℕ
  last_payload : Option Payload
  row_index : ℕ
deriving DecidableEq

/-- Result of one iteration of the `while True:` body of `publisher_thread`:
the successor state, whether `mqtt_client.publish` was invoked, and the log
lines emitted. -/
structure TickOut where
  state : LoopState
  published : Bool
  logs : List String
deriving DecidableEq

/-- One iteration of `publisher_thread`'s loop body.  `connected` is the
value of `_state["mqtt_connected"]` read under the lock; `rc` is the paho
result code of the publish call (0 = `MQTT_ERR_SUCCESS`), relevant only when
`connected`; `clk` is the UTC clock string for this iteration. -/
def tick (f : DataFrame) (connected : Bool) (rc : ℤ) (clk : String)
    (s : LoopState) : TickOut :=
  let row := f.rowAt s.idx
  let payload := build_payload row clk
  let logs :=
    if connected then
      if rc = 0 then ["Published row"] else ["Publish failed"]
    else ["Broker not connected — skipping row"]
  { state :=
      { idx := (s.idx + 1) % f.len
        last_payload := some payload
        row_index := s.idx + 1 }
    published := connected
    logs := logs }

/-- `n` iterations of the Replay Loop from the initial state
(`idx = 0`, `_state["last_payload"] = None`, `_state["row_index"] = 0`).
`conn`, `rc` and `clk` give the environment of each iteration. -/
def runLoop (f : DataFrame) (conn : ℕ → Bool) (rc : ℕ → ℤ) (clk : ℕ → String) :
    ℕ → LoopState
  | 0 => { idx := 0, last_payload := none, row_index := 0 }
  | n + 1 => (tick f (conn n) (rc n) (clk n) (runLoop f conn rc clk n)).state

-- ── Startup connection retry (`_connect_mqtt` of app.py) ─────────────────────

/-- State of the blocking startup connect loop: whether the call has
returned, how many attempts have failed so far, the recorded
`_state["last_error"]`, and the total seconds slept in back-off. -/
structure ConnState where
  returned : Bool
  attempt : ℕ
  last_error : Option String
  slept : ℕ
deriving DecidableEq

/-- One iteration of `_connect_mqtt`'s `while True:` loop.
`att i = none` means attempt `i` of `mqtt_client.connect` succeeds;
`att i = some e` means it raises `OSError(e)`.  On success the loop
breaks (the call returns); on failure the error is recorded into
`_state["last_error"]` under the lock and the loop sleeps 5 seconds. -/
def connectStep (att : ℕ → Option String) (s : ConnState) : ConnState :=
  if s.returned then s
  else
    match att s.attempt with
    | none => { s with returned := true }
    | some e =>
        { s with attempt := s.attempt + 1, last_error := some e, slept := s.slept + 5 }

/-- `n` iterations of `_connect_mqtt`'s retry loop from process start
(not yet returned, no error recorded, no back-off slept). -/
def connectRun (att : ℕ → Option String) : ℕ → ConnState
  | 0 => { returned := false, attempt := 0, last_error := none, slept := 0 }
  | n + 1 => connectStep att (connectRun att n)

-- ── Concrete fixtures ────────────────────────────────────────────────────────

/-- A concrete 3-row dataset (the spec's end-to-end scenario shape). -/
def f3 : DataFrame :=
  { columns := ["Timestamp", "Voltage (V)"]
    cells := [[Cell.text "2024-01-01T00:00:00Z" none, Cell.num 230],
              [Cell.text "2024-01-01T00:00:02Z" none, Cell.num 231],
              [Cell.text "2024-01-01T00:00:04Z" none, Cell.num 232]] }

/-- Environment in which the broker is always connected. -/
def connT : ℕ → Bool := fun _ => true

/-- Environment in which every publish call reports success. -/
def rc0 : ℕ → ℤ := fun _ => 0

/-- A constant UTC clock. -/
def clkC : ℕ → String := fun _ => "2024-06-01T00:00:00Z"

-- ── Replay Loop helper lemmas ────────────────────────────────────────────────

lemma runLoop_idx (f : DataFrame) (conn : ℕ → Bool) (rc : ℕ → ℤ)
    (clk : ℕ → String) (n : ℕ) :
    (runLoop f conn rc clk n).idx = n % f.len := by
  induction n with
  | zero => simp [runLoop]
  | succ m ih =>
      simp only [runLoop, tick]
      rw [ih]
      exact (Nat.mod_modEq m f.len).add_right 1

lemma runLoop_row_index (f : DataFrame) (conn : ℕ → Bool) (rc : ℕ → ℤ)
    (clk : ℕ → String) (m : ℕ) :
    (runLoop f conn rc clk (m + 1)).row_index = m % f.len + 1 := by
  simp only [runLoop, tick]
  rw [runLoop_idx]

lemma runLoop_last_payload (f : DataFrame) (conn : ℕ → Bool) (rc : ℕ → ℤ)
    (clk : ℕ → String) (m : ℕ) :
    (runLoop f conn rc clk (m + 1)).last_payload
      = some (build_payload (f.rowAt ((runLoop f conn rc clk m).idx)) (clk m)) := by
  simp only [runLoop, tick]

-- ── Claim C1 ─────────────────────────────────────────────────────────────────

/-- Claim C1 (counterexample): the claim "after N ticks the snapshot's
row_index equals N mod L, cycling 1,2,0 on a 3-row dataset" is false on the
code: after 3 ticks on the 3-row dataset the snapshot's row_index is 3, not
3 mod 3 = 0, and after 6 ticks it is again 3, not 6 mod 3 = 0. -/
theorem C1_counterexample :
    (runLoop f3 connT rc0 clkC 3).row_index = 3 ∧ (3 : ℕ) % f3.len = 0 ∧
    (runLoop f3 connT rc0 clkC 3).row_index ≠ 3 % f3.len ∧
    (runLoop f3 connT rc0 clkC 6).row_index = 3 ∧ (6 : ℕ) % f3.len = 0 ∧
    (runLoop f3 connT rc0 clkC 6).row_index ≠ 6 % f3.len := by
  refine ⟨?_, ?_, ?_, ?_, ?_, ?_⟩ <;> decide

/-- Claim C1 (amended): after N ≥ 1 ticks on a dataset of length L ≥ 1, the
loop's internal cursor equals N mod L (so it has wrapped whenever N > L),
while the Shared Snapshot's row_index equals ((N-1) mod L) + 1 — on a 3-row
dataset the snapshot's row_index cycles 1,2,3,1,2,3,... -/
theorem C1_row_index_formula (f : DataFrame) (conn : ℕ → Bool) (rc : ℕ → ℤ)
    (clk : ℕ → String) (N : ℕ) (_hL : 0 < f.len) (hN : 1 ≤ N) :
    (runLoop f conn rc clk N).row_index = (N - 1) % f.len + 1 ∧
    (runLoop f conn rc clk N).idx = N % f.len := by
  obtain ⟨m, rfl⟩ : ∃ m, N = m + 1 := ⟨N - 1, (Nat.succ_pred_eq_of_pos hN).symm⟩
  refine ⟨?_, runLoop_idx ..⟩
  rw [runLoop_row_index]
  simp

/-- Witness for C1_row_index_formula at the 3-row dataset and N = 7. -/
theorem C1_row_index_formula_witness :
    (runLoop f3 connT rc0 clkC 7).row_index = (7 - 1) % f3.len + 1 ∧
    (runLoop f3 connT rc0 clkC 7).idx = 7 % f3.len :=
  C1_row_index_formula f3 connT rc0 clkC 7 (by decide) (by decide)

-- ── Claim C5 ─────────────────────────────────────────────────────────────────

/-- Claim C5: in every state reachable after at least one tick, the Shared
Snapshot's last_payload and row_index are mutually consistent: the stored
payload is exactly the one built (with that tick's clock) from the row the
stored index refers to (row_index is 1-based, so row number row_index - 1),
and both carry the same tick number n — so no snapshot pairs a payload from
tick T with a row_index from tick T+1 or T-1.  Each tick writes the pair in
one atomic transition, the model of the single `with _state_lock:` block. -/
theorem C5_snapshot_consistent (f : DataFrame) (conn : ℕ → Bool) (rc : ℕ → ℤ)
    (clk : ℕ → String) (n : ℕ) (hn : 1 ≤ n) :
    (runLoop f conn rc clk n).last_payload
      = some (build_payload (f.rowAt ((runLoop f conn rc clk n).row_index - 1))
          (clk (n - 1))) ∧
    (runLoop f conn rc clk n).row_index = (n - 1) % f.len + 1 := by
  obtain ⟨m, rfl⟩ : ∃ m, n = m + 1 := ⟨n - 1, (Nat.succ_pred_eq_of_pos hn).symm⟩
  have hri := runLoop_row_index f conn rc clk m
  refine ⟨?_, by simpa using hri⟩
  rw [runLoop_last_payload, hri]
  simp [runLoop_idx]

/-- Witness for C5_snapshot_consistent at the 3-row dataset after 2 ticks. -/
theorem C5_snapshot_consistent_witness :
    (runLoop f3 connT rc0 clkC 2).last_payload
      = some (build_payload (f3.rowAt ((runLoop f3 connT rc0 clkC 2).row_index - 1))
          (clkC 1)) ∧
    (runLoop f3 connT rc0 clkC 2).row_index = (2 - 1) % f3.len + 1 :=
  C5_snapshot_consistent f3 connT rc0 clkC 2 (by decide)

-- ── Claim C6 ─────────────────────────────────────────────────────────────────

/-- Claim C6: on every tick, publish is invoked exactly when the Connection
State shows connected; the successor state (snapshot fields and cursor) is
the same whatever the connected flag and whatever the publish result code —
so a skipped or failed publish still updates the Shared Snapshot and still
advances the cursor, and a failed publish never aborts the loop: the tick
completes identically except for the log message. -/
theorem C6_publish_iff_connected (f : DataFrame) (c c2 : Bool) (rc rc2 : ℤ)
    (clk : String) (s : LoopState) :
    (tick f c rc clk s).published = c ∧
    (tick f c rc clk s).state = (tick f c2 rc2 clk s).state ∧
    (tick f c rc clk s).state.last_payload = some (build_payload (f.rowAt s.idx) clk) ∧
    (tick f c rc clk s).state.row_index = s.idx + 1 ∧
    (tick f c rc clk s).state.idx = (s.idx + 1) % f.len :=
  ⟨rfl, rfl, rfl, rfl, rfl⟩

-- ── Claim C10 ────────────────────────────────────────────────────────────────

/-- Claim C10: in every payload the builder produces, whatever the row,
header.asset_id is the configured asset identifier, header.status is the
constant "online", and grid_state.frequency_hz is exactly the nominal 50.0,
with no rounding applied to it. -/
theorem C10_constant_fields (row : Row) (ts : String) :
    (build_payload row ts).header.asset_id = ASSET_ID ∧
    (build_payload row ts).header.asset_id = "mumbai_campus_node_01" ∧
    (build_payload row ts).header.status = "online" ∧
    (build_payload row ts).grid_state.frequency_hz = NOMINAL_FREQ_HZ ∧
    (build_payload row ts).grid_state.frequency_hz = 50 :=
  ⟨rfl, rfl, rfl, rfl, rfl⟩

-- ── Claim C2 ─────────────────────────────────────────────────────────────────

/-- Claim C2 (counterexample): a source consisting of a header line and zero
data rows loads successfully (no exception), the loaded dataset has length 0,
and startup proceeds to start the Replay Loop — refuting both "fails whenever
the source is empty" and "dataset length is at least 1 after a successful
load". -/
theorem C2_counterexample :
    startup (CsvSrc.table ["Timestamp"] [])
      = some { columns := ["Timestamp"], cells := [] } ∧
    ({ columns := ["Timestamp"], cells := [] } : DataFrame).len = 0 := by
  refine ⟨?_, rfl⟩
  show (match load_dataset (CsvSrc.table ["Timestamp"] []) with
        | Except.error _ => none
        | Except.ok f => some f) = _
  rw [show load_dataset (CsvSrc.table ["Timestamp"] [])
        = Except.ok { columns := [stripStr "Timestamp"], cells := [] } from rfl]
  rw [show stripStr "Timestamp" = "Timestamp" from by decide]

/-- Claim C2 (amended): loading fails — and then startup aborts, so the
Replay Loop is never started — exactly when the source has no columns at all
or cannot be tokenized; a source with a header line and zero data rows loads
successfully, so after a successful load the dataset length equals the number
of data rows and may be 0 (the length-at-least-1 invariant does not hold). -/
theorem C2_load_total (src : CsvSrc) :
    ((∃ e, load_dataset src = Except.error e)
      ↔ src = CsvSrc.empty ∨ src = CsvSrc.malformed) ∧
    (∀ e, load_dataset src = Except.error e → startup src = none) ∧
    (∀ h cs, src = CsvSrc.table h cs →
      ∃ f, load_dataset src = Except.ok f ∧ f.len = cs.length ∧ startup src = some f) := by
  cases src with
  | empty =>
      refine ⟨⟨fun _ => Or.inl rfl, fun _ => ⟨_, rfl⟩⟩, fun e _ => rfl, ?_⟩
      intro h cs hcontra
      exact CsvSrc.noConfusion hcontra
  | malformed =>
      refine ⟨⟨fun _ => Or.inr rfl, fun _ => ⟨_, rfl⟩⟩, fun e _ => rfl, ?_⟩
      intro h cs hcontra
      exact CsvSrc.noConfusion hcontra
  | table h cs =>
      refine ⟨⟨?_, ?_⟩, ?_, ?_⟩
      · rintro ⟨e, he⟩
        simp [load_dataset, read_csv, Except.map] at he
      · rintro (hc | hc) <;> exact CsvSrc.noConfusion hc
      · intro e he
        simp [load_dataset, read_csv, Except.map] at he
      · intro h2 cs2 heq
        injection heq with heq1 heq2
        subst heq1; subst heq2
        exact ⟨_, rfl, rfl, rfl⟩

/-- Witness for C2_load_total: the empty source aborts startup; the
header-only source loads with length 0 and does start the loop. -/
theorem C2_load_total_witness :
    startup CsvSrc.empty = none ∧
    ∃ f, load_dataset (CsvSrc.table ["Timestamp"] []) = Except.ok f ∧
      f.len = 0 ∧ startup (CsvSrc.table ["Timestamp"] []) = some f := by
  constructor
  · exact (C2_load_total CsvSrc.empty).2.1
      "EmptyDataError: No columns to parse from file" rfl
  · simpa using (C2_load_total (CsvSrc.table ["Timestamp"] [])).2.2 ["Timestamp"] [] rfl

-- ── Claim C3 ─────────────────────────────────────────────────────────────────

/-- Claim C3 (counterexample): the builder is not deterministic in the row
alone: on a row with no timestamp field, two calls with different ambient UTC
clock values yield different payloads (they differ in header.timestamp). -/
theorem C3_counterexample :
    build_payload [] "2024-06-01T00:00:00Z" ≠ build_payload [] "2024-06-02T00:00:00Z" := by
  intro h
  have ht : (build_payload [] "2024-06-01T00:00:00Z").header.timestamp
      = (build_payload [] "2024-06-02T00:00:00Z").header.timestamp :=
    congrArg (fun p => p.header.timestamp) h
  revert ht
  decide

/-- Claim C3 (amended): the builder has no side effects and is deterministic
given the row and the current UTC clock; it is deterministic in the row
alone whenever the row's timestamp field extracts to a non-empty string,
and whatever the clock, the grid_state and energy_flow groups and the
asset id and status are identical — only header.timestamp can depend on the
clock (for rows with a missing or empty timestamp). -/
theorem C3_deterministic (row : Row) (t1 t2 : String) :
    (safe_str row (colOf "timestamp") "" ≠ "" →
      build_payload row t1 = build_payload row t2) ∧
    (build_payload row t1).grid_state = (build_payload row t2).grid_state ∧
    (build_payload row t1).energy_flow = (build_payload row t2).energy_flow ∧
    (build_payload row t1).header.asset_id = (build_payload row t2).header.asset_id ∧
    (build_payload row t1).header.status = (build_payload row t2).header.status :=
  ⟨fun h => by simp [build_payload, h], rfl, rfl, rfl, rfl⟩

/-- A row whose Timestamp field is present and non-empty. -/
def rowTS : Row := [("Timestamp", Cell.text "2024-01-01T00:00:00Z" none)]

/-- Witness for C3_deterministic: on a row with a non-empty timestamp the
builder gives identical payloads for two different clocks. -/
theorem C3_deterministic_witness :
    build_payload rowTS "2024-06-01T00:00:00Z" = build_payload rowTS "2024-06-02T00:00:00Z" :=
  (C3_deterministic rowTS "2024-06-01T00:00:00Z" "2024-06-02T00:00:00Z").1 (by decide)

-- ── Claim C7 ─────────────────────────────────────────────────────────────────

/-- Claim C7: field extraction never fails and degrades to the caller's
default for every absent, NaN, or non-numeric field; in particular, for every
row whose "Voltage (V)" field is absent, NaN, or a non-numeric string, the
builder produces voltage_v = 0.0. -/
theorem C7_missing_field_default (row : Row) (ts : String) (col : String) (d : ℚ)
    (h : row.lookup col = none ∨ row.lookup col = some Cell.nan ∨
      ∃ s, row.lookup col = some (Cell.text s none)) :
    safe_float row col d = d ∧
    (col = "Voltage (V)" → (build_payload row ts).grid_state.voltage_v = 0) := by
  have hsf : safe_float row col d = d := by
    rcases h with h1 | h1 | ⟨s, h1⟩ <;> simp [safe_float, h1]
  refine ⟨hsf, ?_⟩
  intro hcol
  subst hcol
  show roundTo (safe_float row (colOf "voltage") 0) 4 = 0
  rw [colOf_voltage]
  have hsf0 : safe_float row "Voltage (V)" 0 = 0 := by
    rcases h with h1 | h1 | ⟨s, h1⟩ <;> simp [safe_float, h1]
  rw [hsf0, roundTo]
  rw [show (0 : ℚ) * 10 ^ 4 = 0 by ring]
  rw [show rndHalfEven 0 = 0 from rndHalfEven_low (by norm_num) (by norm_num)]
  norm_num

/-- Witness for C7_missing_field_default: a concrete row lacking the
"Voltage (V)" field yields voltage_v = 0. -/
theorem C7_missing_field_default_witness :
    safe_float rowTS "Voltage (V)" 0 = 0 ∧
    (build_payload rowTS "t").grid_state.voltage_v = 0 := by
  have h := C7_missing_field_default rowTS "t" "Voltage (V)" 0 (Or.inl rfl)
  exact ⟨h.1, h.2 rfl⟩

-- ── Connection retry helper lemmas ───────────────────────────────────────────

lemma connectRun_attempt_le (att : ℕ → Option String) (n : ℕ) :
    (connectRun att n).attempt ≤ n := by
  induction n with
  | zero => exact Nat.le_refl 0
  | succ m ih =>
      show (connectStep att (connectRun att m)).attempt ≤ m + 1
      rw [connectStep]
      split
      · exact Nat.le_succ_of_le ih
      · split
        · exact Nat.le_succ_of_le ih
        · exact Nat.succ_le_succ ih

lemma connectRun_returns (att : ℕ → Option String) (n : ℕ) :
    (connectRun att n).returned = true → ∃ i, i < n ∧ att i = none := by
  induction n with
  | zero => intro h; simp [connectRun] at h
  | succ m ih =>
      intro h
      rw [show connectRun att (m + 1) = connectStep att (connectRun att m) from rfl,
        connectStep] at h
      by_cases hr : (connectRun att m).returned = true
      · obtain ⟨i, hi, ha⟩ := ih hr
        exact ⟨i, Nat.lt_succ_of_lt hi, ha⟩
      · rw [if_neg hr] at h
        rcases hat : att (connectRun att m).attempt with _ | e
        · exact ⟨(connectRun att m).attempt,
            Nat.lt_succ_of_le (connectRun_attempt_le att m), hat⟩
        · rw [hat] at h
          simp at h
          exact absurd h hr

lemma connectRun_all_fail (att : ℕ → Option String) (n : ℕ)
    (hall : ∀ i, i < n → att i ≠ none) :
    (connectRun att n).returned = false ∧
    (connectRun att n).attempt = n ∧
    (connectRun att n).slept = 5 * n ∧
    ∀ e, att (n - 1) = some e → 0 < n → (connectRun att n).last_error = some e := by
  induction n with
  | zero =>
      exact ⟨rfl, rfl, rfl, fun e _ h0 => absurd h0 (Nat.lt_irrefl 0)⟩
  | succ m ih =>
      obtain ⟨ihr, iha, ihs, _ihe⟩ := ih (fun i hi => hall i (Nat.lt_succ_of_lt hi))
      rcases hat : att m with _ | e
      · exact absurd hat (hall m (Nat.lt_succ_self m))
      · rw [show connectRun att (m + 1) = connectStep att (connectRun att m) from rfl,
          connectStep, if_neg (by rw [ihr]; exact Bool.false_ne_true), iha, hat]
        refine ⟨ihr, rfl, ?_, ?_⟩
        · show (connectRun att m).slept + 5 = 5 * (m + 1)
          rw [ihs]; ring
        · intro e2 he2 _
          show some e = some e2
          rw [show att (m + 1 - 1) = att m from rfl, hat] at he2
          exact he2

-- ── Claim C8 ─────────────────────────────────────────────────────────────────

/-- Claim C8: the blocking startup connect never fails outward — it returns
only after some attempt succeeds; while every attempt has failed it is still
retrying (not returned), has slept exactly 5 seconds per failed attempt,
and has recorded the latest failure's error text into the Connection State's
last_error; and as soon as an attempt succeeds, the call returns. -/
theorem C8_connect_retry (att : ℕ → Option String) (n : ℕ) :
    ((connectRun att n).returned = true → ∃ i, i < n ∧ att i = none) ∧
    ((∀ i, i < n → att i ≠ none) →
      (connectRun att n).returned = false ∧
      (connectRun att n).attempt = n ∧
      (connectRun att n).slept = 5 * n ∧
      ∀ e, att (n - 1) = some e → 0 < n → (connectRun att n).last_error = some e) ∧
    (∀ k, (∀ i, i < k → att i ≠ none) → att k = none →
      (connectRun att (k + 1)).returned = true) := by
  refine ⟨connectRun_returns att n, connectRun_all_fail att n, ?_⟩
  intro k hall hk
  obtain ⟨hr, ha, _, _⟩ := connectRun_all_fail att k hall
  rw [show connectRun att (k + 1) = connectStep att (connectRun att k) from rfl,
    connectStep, if_neg (by rw [hr]; exact Bool.false_ne_true), ha, hk]

/-- A concrete attempt sequence: the first two connection attempts raise
OSError("connection refused"), the third succeeds. -/
def attW : ℕ → Option String := fun i => if i < 2 then some "connection refused" else none

/-- Witness for C8_connect_retry with two failures then a success. -/
theorem C8_connect_retry_witness :
    (connectRun attW 2).returned = false ∧
    (connectRun attW 2).attempt = 2 ∧
    (connectRun attW 2).slept = 10 ∧
    (connectRun attW 2).last_error = some "connection refused" ∧
    (connectRun attW 3).returned = true := by
  have h := (C8_connect_retry attW 2).2.1 (by decide)
  exact ⟨h.1, h.2.1, h.2.2.1, h.2.2.2 "connection refused" (by decide) (by decide),
    (C8_connect_retry attW 0).2.2 2 (by decide) (by decide)⟩

-- ── Claim C4 ─────────────────────────────────────────────────────────────────

/-- A row whose Power Factor cell has six significant decimals. -/
def rowPF : Row := [("Power Factor", Cell.num (123456/1000000))]

/-- Claim C4: in every payload, grid_state.power_factor and
grid_state.voltage_fluctuation are 6-decimal-place numbers, while
grid_state.voltage_v, grid_state.current_a and all five energy_flow fields
(including grid_supply_kw) are 4-decimal-place numbers; the asymmetry is
real: there is a payload whose power_factor is not a 4-decimal-place number. -/
theorem C4_rounding_tiers (row : Row) (ts : String) :
    hasDecimals (build_payload row ts).grid_state.power_factor 6 ∧
    hasDecimals (build_payload row ts).grid_state.voltage_fluctuation 6 ∧
    hasDecimals (build_payload row ts).grid_state.voltage_v 4 ∧
    hasDecimals (build_payload row ts).grid_state.current_a 4 ∧
    hasDecimals (build_payload row ts).energy_flow.load_kw 4 ∧
    hasDecimals (build_payload row ts).energy_flow.solar_gen_kw 4 ∧
    hasDecimals (build_payload row ts).energy_flow.wind_gen_kw 4 ∧
    hasDecimals (build_payload row ts).energy_flow.grid_supply_kw 4 ∧
    hasDecimals (build_payload row ts).energy_flow.reactive_power_kvar 4 ∧
    ¬ hasDecimals (build_payload rowPF "t").grid_state.power_factor 4 := by
  refine ⟨roundTo_hasDecimals _ 6, roundTo_hasDecimals _ 6, roundTo_hasDecimals _ 4,
    roundTo_hasDecimals _ 4, roundTo_hasDecimals _ 4, roundTo_hasDecimals _ 4,
    roundTo_hasDecimals _ 4, roundTo_hasDecimals _ 4, roundTo_hasDecimals _ 4, ?_⟩
  have h1 : (build_payload rowPF "t").grid_state.power_factor
      = roundTo (roundTo (123456/1000000 : ℚ) 6) 6 := rfl
  have h2 : roundTo (123456/1000000 : ℚ) 6 = 123456/1000000 := by
    rw [roundTo]
    rw [show (123456/1000000 : ℚ) * 10 ^ 6 = ((123456 : ℤ) : ℚ) by norm_num]
    rw [show rndHalfEven ((123456 : ℤ) : ℚ) = 123456 from
      rndHalfEven_low (by norm_num) (by norm_num)]
    norm_num
  rintro ⟨z, hz⟩
  rw [h1, h2, h2] at hz
  have h100 : (z : ℚ) = 123456/100 := by
    field_simp at hz
    linarith
  have hZQ : (100 : ℚ) * z = 123456 := by rw [h100]; norm_num
  have hZ : (100 : ℤ) * z = 123456 := by exact_mod_cast hZQ
  omega

